import Mathlib

/-!
Shallow embedding of `src/src/main.rs` (a simulation of macroquad's
`get_internal_gl()` global-context pattern).

The global `static CONTEXT: RacyCell<Option<Context>>` is modelled as an
explicit `Option Context` value threaded through the access functions.
`f32` fields are modelled as `ℚ`: every floating-point value exercised by the
program (small integers, `100.0 + x`, `+ 1.0` increments) is exactly
representable and exactly computed in `f32`, so rational arithmetic is
faithful for the stated properties.  The `u32` counters are modelled as `ℕ`
with explicit reduction modulo `2 ^ 32` at each increment (wrapping `u32`
arithmetic).
-/

namespace MacroquadUB

/-- The `Touch` record from `main.rs`: `{ is_touch_started, x, y }`. -/
structure Touch where
  is_touch_started : Bool
  x : ℚ
  y : ℚ
deriving DecidableEq

/-- The `Context` payload from `main.rs`.

The field `audio_buffer` is not present in `src/src/main.rs` (the variant in
`src/` has no audio subsystem).  Modelled from the spec: `audio_buffer` is
"an append-only byte sequence representing loaded sound data", needed by the
`load_sound` operation the spec describes. -/
structure Context where
  quad_context : ℕ
  gl : ℕ
  screen_width : ℚ
  screen_height : ℚ
  mouse_x : ℚ
  mouse_y : ℚ
  touches : List Touch
  simulate_mouse_with_touch : Bool
  audio_buffer : List ℕ
deriving DecidableEq

/-- Defaults from `impl Default for Context` in `main.rs` (all zero, empty touch list, flag
true); `audio_buffer` starts empty per the spec's append-only byte sequence. -/
def Context.default : Context :=
  { quad_context := 0
    gl := 0
    screen_height := 0
    screen_width := 0
    mouse_x := 0
    mouse_y := 0
    touches := []
    simulate_mouse_with_touch := true
    audio_buffer := [] }

/-- Source `Context::perform_render_passes`: `self.quad_context += 1; self.gl += 1;`
(wrapping `u32` increments). -/
def perform_render_passes (c : Context) : Context :=
  { c with
    quad_context := (c.quad_context + 1) % 2 ^ 32
    gl := (c.gl + 1) % 2 ^ 32 }

/-- Handle method `InternalGlContext::flush`: gets the context and calls
`perform_render_passes` on it. -/
def flush (c : Context) : Context :=
  perform_render_passes c

/-- Function `helper()`: obtains the handle from `get_internal_gl()` and performs
`*gl.quad_gl += 1`, i.e. a wrapping increment of the `gl` field. -/
def helper (c : Context) : Context :=
  { c with gl := (c.gl + 1) % 2 ^ 32 }

/-- The direct counter mutation `*gl.quad_context += 1` performed by `main`
through the handle's raw pointer (wrapping `u32` increment). -/
def inc_quad_context (c : Context) : Context :=
  { c with quad_context := (c.quad_context + 1) % 2 ^ 32 }

/-- Function `resize_event(width, height)`: sets `screen_height` then
`screen_width`. -/
def resize_event (width height : ℚ) (c : Context) : Context :=
  { c with screen_height := height, screen_width := width }

/-- Function `mouse_motion_event(x, y)`: sets `mouse_x` then `mouse_y`. -/
def mouse_motion_event (x y : ℚ) (c : Context) : Context :=
  { c with mouse_x := x, mouse_y := y }

/-- Function `touch_event(is_touch_started, x, y)`: pushes the raw touch record,
reads `simulate_mouse_with_touch`, possibly synthesizes a mouse move (the
source has identical then/else branches, kept here), then pushes the second,
offset record `{is_touch_started, 100.0 + x, 100.0 + y}`. -/
def touch_event (is_touch_started : Bool) (x y : ℚ) (c : Context) : Context :=
  let c1 := { c with touches := c.touches ++ [⟨is_touch_started, x, y⟩] }
  let simulate_mouse_with_touch := c1.simulate_mouse_with_touch
  let c2 :=
    if simulate_mouse_with_touch then
      if is_touch_started then mouse_motion_event x y c1
      else mouse_motion_event x y c1
    else c1
  { c2 with touches := c2.touches ++ [⟨is_touch_started, 100 + x, 100 + y⟩] }

/-- Modelled from the spec: `load_sound(data)` is absent from the variant in
`src/`; per the spec it "appends `data` to `audio_buffer` twice while also
incrementing `mouse_x` by 1.0 before each append (two appends, two
increments, interleaved in that order)". -/
def load_sound (data : List ℕ) (c : Context) : Context :=
  let c1 := { c with mouse_x := c.mouse_x + 1 }
  let c2 := { c1 with audio_buffer := c1.audio_buffer ++ data }
  let c3 := { c2 with mouse_x := c2.mouse_x + 1 }
  { c3 with audio_buffer := c3.audio_buffer ++ data }

/-- The operations an external caller can perform on an initialized context:
the handle's `flush`, the driver's direct counter mutation, `helper`, and the
event mutators. -/
inductive Op where
  | flush : Op
  | incQuad : Op
  | helper : Op
  | resize (width height : ℚ) : Op
  | mouseMove (x y : ℚ) : Op
  | touch (is_touch_started : Bool) (x y : ℚ) : Op
  | loadSound (data : List ℕ) : Op
deriving DecidableEq

/-- The effect of one operation on an initialized context. -/
def apply : Op → Context → Context
  | .flush, c => flush c
  | .incQuad, c => inc_quad_context c
  | .helper, c => helper c
  | .resize w h, c => resize_event w h c
  | .mouseMove x y, c => mouse_motion_event x y c
  | .touch s x y, c => touch_event s x y c
  | .loadSound data, c => load_sound data c

/-- Run a sequence of operations left to right. -/
def run (ops : List Op) (c : Context) : Context :=
  ops.foldl (fun c op => apply op c) c

/-- Initialization: `static CONTEXT` starts as `None`; `unsafe fn init_context()` overwrites
it with `Some(Context::default())` regardless of the previous state. -/
def init_context (_ : Option Context) : Option Context :=
  some Context.default

/-- Accessor `get_context()`: `panic!()` (modelled as `Except.error ()`) when
the static still holds `None`, otherwise yields the context. -/
def get_context : Option Context → Except Unit Context
  | none => Except.error ()
  | some c => Except.ok c

/-- Running one operation through the global access chokepoint: every
operation's first action is a `get_context()` call (directly, or through
`get_internal_gl()`), which panics when uninitialized. -/
def run_op (op : Op) (s : Option Context) : Except Unit (Option Context) :=
  (get_context s).map (fun c => some (apply op c))

/-- Running a sequence of operations through the chokepoint, propagating the
panic. -/
def run_ops : List Op → Option Context → Except Unit (Option Context)
  | [], s => Except.ok s
  | op :: ops, s => (run_op op s).bind (run_ops ops)

/-- Modelled from the spec: the checked/serialized discipline's lock state
machine, absent from the variant in `src/` (which uses the unchecked
`RacyCell` discipline).  Per the spec's design notes: states are
`{Unlocked, Locked(owner)}`; a second acquire while `Locked` blocks —
blocking is rendered as the absence of a successor state (`none`). -/
inductive LockState where
  | unlocked : LockState
  | locked (owner : ℕ) : LockState
deriving DecidableEq

/-- Modelled from the spec: `acquire()` by `owner` succeeds immediately when
unlocked; while any handle is live (state `locked`) it blocks — even when the
holder is the same owner (the discipline is non-re-entrant). -/
def acquire (owner : ℕ) : LockState → Option LockState
  | .unlocked => some (.locked owner)
  | .locked _ => none

/-- Modelled from the spec: releasing a handle returns the lock to
`unlocked`. -/
def release : LockState → LockState :=
  fun _ => .unlocked

/-- Accessor `get_internal_gl()`: calls `get_context()` and wraps the raw
pointers to the two counter fields in an `InternalGlContext` handle; in this
embedding the handle's access capability is modelled as the context itself,
so the observable content is that it panics exactly when `get_context`
does. -/
def get_internal_gl (s : Option Context) : Except Unit Context :=
  get_context s

/-- One iteration of the game loop in `main`: `flush`, `*gl.quad_context += 1`,
`helper()`, `resize_event(1920., 1080.)`, `mouse_motion_event(42.0, 84.0)`,
`touch_event(true, frame, frame)`, then a second `flush`.  The
`load_sound([frame, frame])` call between the touch event and the final
flush is modelled from the spec's end-to-end scenario (the variant in `src/`
has no audio subsystem). -/
def frame (n : ℕ) (c : Context) : Context :=
  let c := flush c
  let c := inc_quad_context c
  let c := helper c
  let c := resize_event 1920 1080 c
  let c := mouse_motion_event 42 84 c
  let c := touch_event true (n : ℚ) (n : ℚ) c
  let c := load_sound [n, n] c
  flush c

/-- The whole driver run of `main`: `init_context()` (which stores
`Context::default()`), then five frames. -/
def main_run : Context :=
  (List.range 5).foldl (fun c n => frame n c) Context.default

/-!  Helper lemmas (normal forms for the two multi-step mutators, and the
range invariant on the wrapped counters). -/

/-- Normal form of `touch_event`: two records appended, mouse position set
exactly when the flag is on; everything else untouched. -/
theorem touch_event_eq (s : Bool) (x y : ℚ) (c : Context) :
    touch_event s x y c =
      { c with
        touches := c.touches ++ [⟨s, x, y⟩, ⟨s, 100 + x, 100 + y⟩]
        mouse_x := if c.simulate_mouse_with_touch then x else c.mouse_x
        mouse_y := if c.simulate_mouse_with_touch then y else c.mouse_y } := by
  cases hc : c.simulate_mouse_with_touch <;> cases s <;>
    simp [touch_event, mouse_motion_event, hc]

/-- Normal form of `load_sound`: data appended twice, `mouse_x` advanced
twice by 1; everything else untouched. -/
theorem load_sound_eq (data : List ℕ) (c : Context) :
    load_sound data c =
      { c with
        audio_buffer := c.audio_buffer ++ (data ++ data)
        mouse_x := c.mouse_x + 1 + 1 } := by
  simp [load_sound]

/-- Every single operation keeps both counters below `2 ^ 32`. -/
theorem apply_counters_lt (op : Op) (c : Context)
    (hq : c.quad_context < 2 ^ 32) (hg : c.gl < 2 ^ 32) :
    (apply op c).quad_context < 2 ^ 32 ∧ (apply op c).gl < 2 ^ 32 := by
  cases op <;>
    simp [apply, flush, perform_render_passes, inc_quad_context, helper,
      resize_event, mouse_motion_event, touch_event_eq, load_sound_eq] <;>
    omega

/-- Unfolding `run` one operation at a time. -/
theorem run_cons (op : Op) (ops : List Op) (c : Context) :
    run (op :: ops) c = run ops (apply op c) :=
  rfl

/-- Any operation sequence keeps both counters below `2 ^ 32`. -/
theorem run_counters_lt (ops : List Op) (c : Context)
    (hq : c.quad_context < 2 ^ 32) (hg : c.gl < 2 ^ 32) :
    (run ops c).quad_context < 2 ^ 32 ∧ (run ops c).gl < 2 ^ 32 := by
  induction ops generalizing c with
  | nil => exact ⟨hq, hg⟩
  | cons op ops ih =>
      rw [run_cons]
      obtain ⟨h1, h2⟩ := apply_counters_lt op c hq hg
      exact ih _ h1 h2

/-- On uninitialized state, `run_op` propagates the panic of `get_context`. -/
theorem run_op_some (op : Op) (c : Context) :
    run_op op (some c) = Except.ok (some (apply op c)) :=
  rfl

/-- Running any operation sequence from an initialized state always succeeds
and stays initialized. -/
theorem run_ops_some (ops : List Op) (c : Context) :
    ∃ c' : Context, run_ops ops (some c) = Except.ok (some c') := by
  induction ops generalizing c with
  | nil => exact ⟨c, rfl⟩
  | cons op ops ih =>
      obtain ⟨c', h⟩ := ih (apply op c)
      exact ⟨c', by simp [run_ops, run_op_some, Except.bind, h]⟩

/-!  Claim theorems. -/

/-- C1 (corrected): for every sequence of operations on the initialized
context, a `flush()` sets each of the two render counters to its wrapped
successor `(k + 1) % 2 ^ 32` — an increase by exactly 1 in `u32` arithmetic —
and therefore the two counters are equal immediately after the flush if and
only if they were equal immediately before it.  The claim's unconditional
equality after every flush fails: a direct counter mutation through the
handle's pointer unbalances the counters and `flush` preserves the
imbalance. -/
theorem flush_counter_pairing (ops : List Op) :
    ((flush (run ops Context.default)).quad_context = (flush (run ops Context.default)).gl
      ↔ (run ops Context.default).quad_context = (run ops Context.default).gl)
    ∧ (flush (run ops Context.default)).quad_context
        = ((run ops Context.default).quad_context + 1) % 2 ^ 32
    ∧ (flush (run ops Context.default)).gl
        = ((run ops Context.default).gl + 1) % 2 ^ 32 := by
  obtain ⟨hq, hg⟩ := run_counters_lt ops Context.default (by decide) (by decide)
  refine ⟨?_, rfl, rfl⟩
  simp only [flush, perform_render_passes]
  omega

/-- C1 (counterexample): after the operation sequence
`[*gl.quad_context += 1, flush]` on a freshly initialized context — both
operations drawn from the claim's own operation list — the state immediately
after the `flush()` call has `quad_context = 2` and `gl = 1`, so the two
render counters are not equal after a flush. -/
theorem flush_counter_pairing_cex :
    (run [Op.incQuad, Op.flush] Context.default).quad_context = 2
    ∧ (run [Op.incQuad, Op.flush] Context.default).gl = 1
    ∧ ¬ (run [Op.incQuad, Op.flush] Context.default).quad_context
        = (run [Op.incQuad, Op.flush] Context.default).gl := by
  decide

/-- C2: after `init()` and five frames of the driver loop (each frame:
`flush`; `*quad_context += 1`; `helper` (`*gl += 1`); `resize(1920, 1080)`;
`mouse_move(42, 84)`; `touch(true, frame, frame)`; `load_sound([frame,
frame])`; `flush`), the final context has both render counters at 15, screen
1920 × 1080, exactly 10 touch records and exactly 20 audio bytes. -/
theorem main_end_to_end :
    init_context none = some Context.default
    ∧ main_run.quad_context = 15
    ∧ main_run.gl = 15
    ∧ main_run.screen_width = 1920
    ∧ main_run.screen_height = 1080
    ∧ main_run.touches.length = 10
    ∧ main_run.audio_buffer.length = 20 := by
  decide

/-- C3: `touch_event(true, 3.0, 4.0)` on a freshly initialized (default)
context appends exactly the records `{true, 3, 4}` then `{true, 103, 104}`
to the touch queue, and — the flag defaulting to true — leaves
`mouse_x = 3` and `mouse_y = 4`. -/
theorem touch_on_fresh_context :
    (touch_event true 3 4 Context.default).touches
      = [⟨true, 3, 4⟩, ⟨true, 103, 104⟩]
    ∧ (touch_event true 3 4 Context.default).mouse_x = 3
    ∧ (touch_event true 3 4 Context.default).mouse_y = 4 := by
  refine ⟨?_, ?_, ?_⟩
  · simp [touch_event_eq, Context.default]
    norm_num
  · simp [touch_event_eq, Context.default]
  · simp [touch_event_eq, Context.default]

/-- C4: `flush()` sets each render counter to its wrapped successor — exactly
`+ 1` whenever the counter does not wrap (in particular at every value
reachable in the demonstrated scenarios) — and changes no other field of the
context. -/
theorem flush_increments_counters_only (c : Context) :
    (flush c).quad_context = (c.quad_context + 1) % 2 ^ 32
    ∧ (flush c).gl = (c.gl + 1) % 2 ^ 32
    ∧ (c.quad_context + 1 < 2 ^ 32 → (flush c).quad_context = c.quad_context + 1)
    ∧ (c.gl + 1 < 2 ^ 32 → (flush c).gl = c.gl + 1)
    ∧ (flush c).screen_width = c.screen_width
    ∧ (flush c).screen_height = c.screen_height
    ∧ (flush c).mouse_x = c.mouse_x
    ∧ (flush c).mouse_y = c.mouse_y
    ∧ (flush c).touches = c.touches
    ∧ (flush c).simulate_mouse_with_touch = c.simulate_mouse_with_touch
    ∧ (flush c).audio_buffer = c.audio_buffer := by
  refine ⟨rfl, rfl, fun h => ?_, fun h => ?_, rfl, rfl, rfl, rfl, rfl, rfl, rfl⟩ <;>
    · simp only [flush, perform_render_passes]
      omega

/-- C4 (witness): on the default context neither counter wraps, and `flush`
takes `quad_context` from 0 to exactly 1. -/
theorem flush_increments_counters_only_witness :
    Context.default.quad_context + 1 < 2 ^ 32
    ∧ (flush Context.default).quad_context = Context.default.quad_context + 1 :=
  ⟨by decide, (flush_increments_counters_only Context.default).2.2.1 (by decide)⟩

/-- C5: before `init()` (the static holds `none`) every accessor —
`get_context`, `get_internal_gl`, and every event mutator routed through
them — panics rather than silently succeeding; after `init_context` has run,
any sequence of accesses succeeds immediately, ending in an initialized
state. -/
theorem access_requires_init :
    get_context none = Except.error ()
    ∧ get_internal_gl none = Except.error ()
    ∧ (∀ op : Op, run_op op none = Except.error ())
    ∧ (∀ c : Context, get_context (some c) = Except.ok c)
    ∧ (∀ c : Context, get_internal_gl (some c) = Except.ok c)
    ∧ (∀ (ops : List Op) (s : Option Context),
        ∃ c : Context, run_ops ops (init_context s) = Except.ok (some c)) := by
  refine ⟨rfl, rfl, fun op => rfl, fun c => rfl, fun c => rfl, fun ops s => ?_⟩
  exact run_ops_some ops Context.default

/-- C6: `load_sound(data)` appends `data` to the audio buffer exactly twice
and advances `mouse_x` by exactly 2 (one increment before each append),
leaving every other field unchanged; in particular `load_sound([7, 7])` on
the default context yields buffer `[7, 7, 7, 7]` with `mouse_x` up by 2. -/
theorem load_sound_double_append :
    (∀ (data : List ℕ) (c : Context),
        (load_sound data c).audio_buffer = c.audio_buffer ++ data ++ data
        ∧ (load_sound data c).mouse_x = c.mouse_x + 2
        ∧ (load_sound data c).quad_context = c.quad_context
        ∧ (load_sound data c).gl = c.gl
        ∧ (load_sound data c).screen_width = c.screen_width
        ∧ (load_sound data c).screen_height = c.screen_height
        ∧ (load_sound data c).mouse_y = c.mouse_y
        ∧ (load_sound data c).touches = c.touches
        ∧ (load_sound data c).simulate_mouse_with_touch = c.simulate_mouse_with_touch)
    ∧ (load_sound [7, 7] Context.default).audio_buffer = [7, 7, 7, 7]
    ∧ (load_sound [7, 7] Context.default).mouse_x = Context.default.mouse_x + 2 := by
  refine ⟨fun data c => ?_, ?_, ?_⟩
  · refine ⟨by simp [load_sound_eq], by simp [load_sound_eq]; ring,
      rfl, rfl, rfl, rfl, rfl, rfl, rfl⟩
  · simp [load_sound_eq, Context.default]
  · simp [load_sound_eq, Context.default]
    norm_num

/-- C7: in the checked/serialized discipline's lock state machine, an
`acquire` on the unlocked state succeeds immediately, but a second `acquire`
by the same owner while that owner's handle is still live (state
`locked owner`) has no successor state — it blocks indefinitely, the
re-entrant deadlock. -/
theorem reentrant_acquire_deadlock :
    ∀ owner : ℕ,
      acquire owner LockState.unlocked = some (LockState.locked owner)
      ∧ acquire owner (LockState.locked owner) = none :=
  fun _ => ⟨rfl, rfl⟩

/-- C8: every operation on an initialized context only ever extends the
touch queue at the end: the new queue is the old queue followed by some
(possibly empty) list of new records, so existing records keep their values
and positions and none is removed. -/
theorem touch_queue_append_only :
    ∀ (op : Op) (c : Context),
      ∃ t : List Touch, (apply op c).touches = c.touches ++ t := by
  intro op c
  cases op with
  | flush => exact ⟨[], by simp [apply, flush, perform_render_passes]⟩
  | incQuad => exact ⟨[], by simp [apply, inc_quad_context]⟩
  | helper => exact ⟨[], by simp [apply, helper]⟩
  | resize w h => exact ⟨[], by simp [apply, resize_event]⟩
  | mouseMove x y => exact ⟨[], by simp [apply, mouse_motion_event]⟩
  | touch s x y =>
      exact ⟨[⟨s, x, y⟩, ⟨s, 100 + x, 100 + y⟩], by simp [apply, touch_event_eq]⟩
  | loadSound data => exact ⟨[], by simp [apply, load_sound_eq]⟩

/-- C9: a touch event synthesizes a mouse move exactly when
`simulate_mouse_with_touch` is set at the time of the call: the final mouse
position is the touch position when the flag is on and the previous mouse
position when it is off, and in either case the two touch records are
appended. -/
theorem touch_mouse_sim_iff_flag :
    ∀ (s : Bool) (x y : ℚ) (c : Context),
      (touch_event s x y c).mouse_x
          = (if c.simulate_mouse_with_touch then x else c.mouse_x)
      ∧ (touch_event s x y c).mouse_y
          = (if c.simulate_mouse_with_touch then y else c.mouse_y)
      ∧ (touch_event s x y c).touches
          = c.touches ++ [⟨s, x, y⟩, ⟨s, 100 + x, 100 + y⟩] := by
  intro s x y c
  refine ⟨?_, ?_, ?_⟩ <;> simp [touch_event_eq]

/-- C10: for every starting context and coordinates, the states produced by
`touch_event true x y` and `touch_event false x y` agree on every field other
than the touch queue, and their touch queues differ only in the `started`
flag of the two records appended by the call — in particular both branches
synthesize exactly the same mouse move. -/
theorem touch_started_flag_only_difference :
    ∀ (x y : ℚ) (c : Context),
      (touch_event true x y c).touches
          = c.touches ++ [⟨true, x, y⟩, ⟨true, 100 + x, 100 + y⟩]
      ∧ (touch_event false x y c).touches
          = c.touches ++ [⟨false, x, y⟩, ⟨false, 100 + x, 100 + y⟩]
      ∧ (touch_event true x y c).quad_context = (touch_event false x y c).quad_context
      ∧ (touch_event true x y c).gl = (touch_event false x y c).gl
      ∧ (touch_event true x y c).screen_width = (touch_event false x y c).screen_width
      ∧ (touch_event true x y c).screen_height = (touch_event false x y c).screen_height
      ∧ (touch_event true x y c).mouse_x = (touch_event false x y c).mouse_x
      ∧ (touch_event true x y c).mouse_y = (touch_event false x y c).mouse_y
      ∧ (touch_event true x y c).simulate_mouse_with_touch
          = (touch_event false x y c).simulate_mouse_with_touch
      ∧ (touch_event true x y c).audio_buffer = (touch_event false x y c).audio_buffer := by
  intro x y c
  refine ⟨?_, ?_, ?_, ?_, ?_, ?_, ?_, ?_, ?_, ?_⟩ <;> simp [touch_event_eq]

end MacroquadUB
